import Mathlib

/-!
Shallow embedding of the GDB enhanced UI renderer (`.gdbui.py`).

The renderer queries a halted debugger session (registers, stack memory,
disassembly, threads, backtrace) and prints a fixed-layout terminal dashboard.
The debugger and the terminal are external capabilities; they are modelled by
an `Inspector` record of query functions where `none` models a raising /
failing GDB call, and by explicit terminal dimensions.  `print` calls are
modelled by accumulating the printed lines in a `List String`, one element per
printed line; ANSI escape sequences are kept verbatim inside the strings.
-/

namespace Gdbui

/-! ### Colors (`class Colors`) -/

namespace Colors

def RESET : String := "\x1b[0m"

def BOLD : String := "\x1b[1m"

def DIM : String := "\x1b[2m"

def BLACK : String := "\x1b[30m"

def RED : String := "\x1b[91m"

def GREEN : String := "\x1b[92m"

def YELLOW : String := "\x1b[93m"

def BLUE : String := "\x1b[94m"

def MAGENTA : String := "\x1b[95m"

def CYAN : String := "\x1b[96m"

def WHITE : String := "\x1b[97m"

def GRAY : String := "\x1b[90m"

def REGISTER_NAME : String := "\x1b[32m"

def REGISTER_CHANGED : String := "\x1b[91m"

def ADDRESS : String := "\x1b[96m"

def COMMENT : String := "\x1b[90m"

def ARROW : String := "\x1b[90m"

def CURRENT_LINE : String := "\x1b[92m"

def STRING : String := "\x1b[93m"

end Colors

/-! ### Small Python string helpers

Python's `str` methods are modelled by structurally recursive functions over
the character list of the string (Lean's core `String.splitOn` and
`String.replace` are well-founded recursions, which concrete evaluation
inside proofs cannot unfold). -/

/-- Python `str.isspace` characters (the whitespace stripped by `strip()`). -/
def pyIsSpace (c : Char) : Bool :=
  c = ' ' || c = '\t' || c = '\n' || c = '\r' || c = '\x0b' || c = '\x0c'

/-- Python `s.strip()`. -/
def pyStrip (s : String) : String :=
  String.mk (((s.data.dropWhile pyIsSpace).reverse.dropWhile pyIsSpace).reverse)

/-- Python `s.rstrip()`. -/
def pyRStrip (s : String) : String :=
  String.mk ((s.data.reverse.dropWhile pyIsSpace).reverse)

/-- Helper of `pySplitChar`: splits off the accumulated current chunk at each
separator character. -/
def pySplitCharAux (sep : Char) : List Char → List Char → List String
  | [], cur => [String.mk cur.reverse]
  | c :: rest, cur =>
    if c = sep then String.mk cur.reverse :: pySplitCharAux sep rest []
    else pySplitCharAux sep rest (c :: cur)

/-- Python `s.split(sep)` for a one-character separator (the only kind the
renderer uses: `'\n'` and `'/'`); keeps empty chunks, as Python does. -/
def pySplitChar (sep : Char) (s : String) : List String :=
  pySplitCharAux sep s.data []

/-- Python `s.startswith(pre)`. -/
def pyStartsWith (s pre : String) : Bool :=
  pre.data.isPrefixOf s.data

/-- Python `s[:n]` (first `n` characters). -/
def pyTake (s : String) (n : Nat) : String :=
  String.mk (s.data.take n)

/-- Python `c in s` for a single character. -/
def pyContainsChar (s : String) (c : Char) : Bool :=
  s.data.contains c

/-- Helper of `strContains`: does `pat` occur in the list? -/
def containsAux (pat : List Char) : List Char → Bool
  | [] => pat.isEmpty
  | c :: rest => pat.isPrefixOf (c :: rest) || containsAux pat rest

/-- Python `pat in s` (substring test). -/
def strContains (s pat : String) : Bool :=
  containsAux pat.data s.data

/-- Helper of `pyReplace`: replaces non-overlapping occurrences left to
right; the fuel (an upper bound on the number of steps, the source list's
length suffices for the non-empty patterns the renderer uses) only makes the
recursion structural. -/
def pyReplaceAux (pat rep : List Char) : Nat → List Char → List Char
  | _, [] => []
  | 0, l => l
  | fuel + 1, c :: rest =>
    if pat.isPrefixOf (c :: rest) && !pat.isEmpty then
      rep ++ pyReplaceAux pat rep fuel ((c :: rest).drop pat.length)
    else c :: pyReplaceAux pat rep fuel rest

/-- Python `s.replace(pat, rep)` (for a non-empty `pat`). -/
def pyReplace (s pat rep : String) : String :=
  String.mk (pyReplaceAux pat.data rep.data s.data.length s.data)

/-- `char * n` for a character (empty for a non-positive count, as in Python). -/
def repChar (c : Char) (n : Nat) : String :=
  String.mk (List.replicate n c)

/-- Python `f"{s:<{w}s}"`: left-justified padding with spaces.  Like Python's
`len`, `String.length` counts every character, including characters of ANSI
escape sequences. -/
def padRightStr (s : String) (w : Nat) : String :=
  s ++ repChar ' ' (w - s.length)

/-- Python `f"{n:{w}d}"`: right-justified decimal padding with spaces. -/
def padLeftNum (n : Nat) (w : Nat) : String :=
  let s := toString n
  repChar ' ' (w - s.length) ++ s

/-- Zero-pad a digit string on the left to width `w` (Python `0{w}` format). -/
def pad0 (w : Nat) (s : String) : String :=
  repChar '0' (w - s.length) ++ s

/-- Lowercase hexadecimal digits of a natural number (Python `format(n, 'x')`). -/
def hexStr (n : Nat) : String :=
  (Nat.toDigits 16 n).asString

/-- Python `f"{v:0{w}x}"` on an unbounded int: zero-padded lowercase hex; a
negative value is rendered as `-` followed by the digits of its absolute
value, the zero padding counting the sign towards the total width. -/
def pyHexPad (v : Int) (w : Nat) : String :=
  if v < 0 then "-" ++ pad0 (w - 1) (hexStr v.natAbs) else pad0 w (hexStr v.natAbs)

/-- Python `os.path.basename` for the paths the renderer meets (text after the
last `/`). -/
def basename (p : String) : String :=
  ((pySplitChar '/' p).getLastD p)

/-! ### Terminal utilities -/

/-- `colorize(text, color)` -/
def colorize (text color : String) : String :=
  color ++ text ++ Colors.RESET

/-- The line printed by `print_separator(char, label, color, width)`.  The
terminal-size query of the source is modelled by passing the width
explicitly.  Python computes the two paddings with `int` arithmetic and a
possibly negative `remaining`; a negative repetition count yields the empty
string exactly as truncated `Nat` subtraction does, and the label text is
emitted in both encodings, so `Nat` arithmetic is faithful. -/
def print_separator (width : Nat) (char : Char) (label : String) (color : String) : String :=
  if label ≠ "" then
    let label_text := " " ++ label ++ " "
    let remaining := width - label_text.length
    let left := remaining / 2
    let right := remaining - left
    colorize (repChar char left ++ label_text ++ repChar char right) color
  else
    colorize (repChar char width) color

/-- `format_address(addr)`; `none` models Python `None`. -/
def format_address : Option Int → String
  | none => colorize "0x0" Colors.GRAY
  | some addr =>
    if addr = 0 then
      colorize "0x0" Colors.GRAY
    else
      let addr_str :=
        if addr > 0xFFFFFFFF then "0x" ++ pyHexPad addr 16 else "0x" ++ pyHexPad addr 8
      colorize addr_str Colors.ADDRESS

/-! ### Layout Manager (`class LayoutManager`) -/

/-- The per-refresh section budget computed by
`LayoutManager.calculate_sections` (stored as attributes on the manager in the
source). -/
structure Layout where
  width : Nat
  height : Nat
  registers_content_lines : Nat
  stack_lines : Nat
  code_disasm_lines : Nat
  code_source_lines : Nat
  code_separators : Nat
  threads_lines : Nat
  trace_lines : Nat
  padding_lines : Nat

/-- `LayoutManager.calculate_sections`, with the terminal size passed in
(`self.width, self.height` are set from `get_terminal_size()` before the
call).  `max(0, height - used_lines - 1)` is truncated `Nat` subtraction. -/
def calculate_sections (width height : Nat) : Layout :=
  let used_lines := 0
  let used_lines := used_lines + 2
  let registers_content_lines := 18
  let used_lines := used_lines + 1 + registers_content_lines
  let stack_lines := 10
  let used_lines := used_lines + 1 + stack_lines
  let code_disasm_lines := 8
  let code_source_lines := 5
  let code_separators := 2
  let used_lines := used_lines + code_separators + code_disasm_lines + code_source_lines
  let threads_lines := 3
  let used_lines := used_lines + 1 + threads_lines
  let trace_lines := 3
  let used_lines := used_lines + 1 + trace_lines
  let used_lines := used_lines + 1
  let padding_lines := height - used_lines - 1
  { width := width
    height := height
    registers_content_lines := registers_content_lines
    stack_lines := stack_lines
    code_disasm_lines := code_disasm_lines
    code_source_lines := code_source_lines
    code_separators := code_separators
    threads_lines := threads_lines
    trace_lines := trace_lines
    padding_lines := padding_lines }

/-! ### Flags parsing (`RegisterDisplay.parse_eflags`) -/

/-- The `flag_bits` table of `RegisterDisplay.parse_eflags`, verbatim. -/
def flag_bits : List (Nat × String) :=
  [(0, "carry"), (2, "PARITY"), (4, "adjust"), (6, "ZERO"), (7, "sign"),
   (8, "trap"), (9, "INTERRUPT"), (10, "direction"), (11, "overflow")]

/-- The list of set-flag names collected by `parse_eflags` (its `flags`
local); `eflags & (1 << bit)` is truthy iff non-zero, and `1 << bit` is
`2 ^ bit`. -/
def parse_eflags_list (eflags : Int) : List String :=
  flag_bits.filterMap
    (fun p => if Int.land eflags ((2 ^ p.1 : Nat) : Int) ≠ 0 then some p.2 else none)

/-- `RegisterDisplay.parse_eflags`; the Python truthiness test `if flags` is a
non-emptiness test. -/
def parse_eflags (eflags : Int) : String :=
  match parse_eflags_list eflags with
  | [] => "none"
  | flags => String.intercalate " " flags

/-! ### The Inspector capability (the `gdb` module)

Every GDB query the renderer performs is modelled by a field of `Inspector`;
a `none` result models a call that raises (every call site wraps the call in
`try/except`) or returns an unusable value where the source treats the two
identically. -/

/-- A GDB lexical block: `block.function` (only its truthiness and, for the
innermost function block, its identity are used), `block.start`, `block.end`
(called `stop` here since `end` is reserved), and `block.superblock`. -/
inductive Block where
  | mk (function : Option String) (start stop : Int) (superblock : Option Block)

def Block.function : Block → Option String
  | .mk f _ _ _ => f

def Block.start : Block → Int
  | .mk _ s _ _ => s

def Block.stop : Block → Int
  | .mk _ _ e _ => e

/-- The loop `while block.function is None and block.superblock is not None:
block = block.superblock` of `CodeDisplay.display`. -/
def Block.walk : Block → Block
  | .mk none _ _ (some sb) => Block.walk sb
  | b => b

/-- The selected frame (`gdb.selected_frame()`).  `block` is `.block()` (a
raising call and a `None` result both lead the caller to its fallback, so
they share `none`); `function` is `.function()` (`none` models both a `None`
result and, where the caller catches it, a raising call); `sal` is
`.find_sal()` restricted to the two fields used, `symtab.filename` and
`line` (`none` models a raising call or a falsy `symtab`). -/
structure Frame where
  block : Option Block
  function : Option String
  pc : Int
  sal : Option (String × Nat)

/-- The external debugger capability.  `readReg name` models
`int(gdb.parse_and_eval("$name"))`; `readMem a` models
`int(gdb.parse_and_eval("*(long*)a"))`; `infoSymbol a` models
`gdb.execute("info symbol a", to_string=True)`; `disassemble lo hi` models
`gdb.execute("disassemble lo,hi", to_string=True)`; `infoThreads` models
`gdb.execute("info threads", to_string=True)`; `backtrace n` models
`gdb.execute("backtrace n", to_string=True)`; `readFile p` models
`open(p).readlines()` (one element per line).  The terminal dimensions are
`get_terminal_size()`. -/
structure Inspector where
  termWidth : Nat
  termHeight : Nat
  readReg : String → Option Int
  readMem : Int → Option Int
  infoSymbol : Int → Option String
  frame : Option Frame
  disassemble : Int → Int → Option String
  infoThreads : Option String
  backtrace : Nat → Option String
  readFile : String → Option (List String)

/-! ### Register Display (`class RegisterDisplay`) -/

/-- `self.prev_values`: a Python dict from register name to the previously
read value (which may itself be `None`, stored as such). -/
abbrev Prev := List (String × Option Int)

/-- Dict lookup: `some v` when the key is present (Python `k in d` plus
`d.get(k)`), `none` when absent. -/
def dget : Prev → String → Option (Option Int)
  | [], _ => none
  | (k, v) :: rest, key => if k = key then some v else dget rest key

/-- Dict assignment `d[k] = v` (overwrites the binding seen by `dget`). -/
def dset : Prev → String → Option Int → Prev
  | [], key, v => [(key, v)]
  | (k, w) :: rest, key, v => if k = key then (key, v) :: rest else (k, w) :: dset rest key v

namespace RegisterDisplay

/-- `RegisterDisplay.GENERAL_REGS` -/
def GENERAL_REGS : List String :=
  ["rax", "rbx", "rcx", "rdx", "rsi", "rdi", "rbp", "rsp",
   "r8", "r9", "r10", "r11", "r12", "r13", "r14", "r15"]

/-- `RegisterDisplay.get_register_value` -/
def get_register_value (ins : Inspector) (reg_name : String) : Option Int :=
  ins.readReg reg_name

/-- `RegisterDisplay.get_pointer_info` -/
def get_pointer_info (ins : Inspector) (addr : Int) : String :=
  if addr = 0 then ""
  else
    match ins.readMem addr with
    | some val_int => format_address (some val_int)
    | none =>
      match ins.infoSymbol addr with
      | none => ""
      | some raw =>
        let sym_info := pyStrip raw
        if ¬ strContains sym_info "No symbol" ∧ sym_info ≠ "" then
          let sym_info := ((pySplitChar '\n' sym_info).headD "")
          let sym_info :=
            if sym_info.length > 40 then pyTake sym_info 37 ++ "..." else sym_info
          colorize sym_info Colors.COMMENT
        else ""

/-- The `changed` test of `RegisterDisplay.format_register_line`:
`reg_name in self.prev_values and self.prev_values.get(reg_name) != value`. -/
def register_changed (prev : Prev) (reg_name : String) (value : Option Int) : Bool :=
  match dget prev reg_name with
  | none => false
  | some stored => stored ≠ value

/-- The annotation appended by `format_register_line` for pointer-candidate
registers and for `rip`. -/
def register_annotation (ins : Inspector) (reg_name : String) (value : Option Int) : String :=
  match value with
  | none => ""
  | some v =>
    if v ≠ 0 then
      if ["rsp", "rbp", "rsi", "rdi"].contains reg_name then
        get_pointer_info ins v
      else if reg_name = "rip" then
        match ins.frame with
        | none => ""
        | some fr =>
          match fr.function with
          | some fn => colorize ("<" ++ fn ++ ">") Colors.COMMENT
          | none => ""
      else ""
    else ""

/-- `RegisterDisplay.format_register_line`, returning the printed line and the
updated `prev_values` (the method mutates `self.prev_values[reg_name]`). -/
def format_register_line (ins : Inspector) (prev : Prev) (reg_name : String)
    (value : Option Int) : String × Prev :=
  let changed := register_changed prev reg_name value
  let reg_label :=
    if changed then colorize ("$" ++ padRightStr reg_name 4) Colors.REGISTER_CHANGED
    else colorize ("$" ++ padRightStr reg_name 4) Colors.REGISTER_NAME
  let val_str :=
    match value with
    | none => colorize "0x0" Colors.GRAY
    | some v =>
      if changed then
        colorize ("0x" ++ (if v > 0xFFFFFFFF then pyHexPad v 16 else pyHexPad v 8))
          Colors.REGISTER_CHANGED
      else format_address (some v)
  let result := reg_label ++ " : " ++ val_str
  let annotation := register_annotation ins reg_name value
  let result :=
    if annotation ≠ "" then result ++ colorize " → " Colors.ARROW ++ annotation else result
  (result, dset prev reg_name value)

/-- The general-purpose-register loop of `RegisterDisplay.display`: one line
per register of `regs`, threading `prev_values` through. -/
def renderRegsAux (ins : Inspector) : List String → Prev → List String × Prev
  | [], prev => ([], prev)
  | reg :: rest, prev =>
    let st := format_register_line ins prev reg (get_register_value ins reg)
    let st2 := renderRegsAux ins rest st.2
    (st.1 :: st2.1, st2.2)

/-- The flags-register block of `RegisterDisplay.display` (prints one line
when `eflags` is readable, nothing otherwise). -/
def flagsLines (ins : Inspector) : List String :=
  match get_register_value ins "eflags" with
  | none => []
  | some eflags =>
    let flags_str := parse_eflags eflags
    let reg_label := colorize "$rflags" Colors.REGISTER_NAME
    let val_str := format_address (some eflags)
    let arrow := colorize " → " Colors.ARROW
    let comment := colorize ("[" ++ flags_str ++ "]") Colors.COMMENT
    [padRightStr reg_label 10 ++ " : " ++ val_str ++ arrow ++ comment]

/-- The segment registers consulted by `RegisterDisplay.display`. -/
def SEG_REGS : List String := ["cs", "ss", "ds", "es", "fs", "gs"]

/-- The `seg_parts` list of `RegisterDisplay.display`. -/
def segParts (ins : Inspector) : List String :=
  SEG_REGS.filterMap (fun seg =>
    match get_register_value ins seg with
    | none => none
    | some val =>
      some (colorize ("$" ++ seg) Colors.REGISTER_NAME ++ ": " ++
        colorize ("0x" ++ pyHexPad val 4) Colors.ADDRESS))

/-- The segment-register block of `RegisterDisplay.display` (one joined line
when any segment register is readable, nothing otherwise). -/
def segLines (ins : Inspector) : List String :=
  match segParts ins with
  | [] => []
  | parts => [String.intercalate "  " parts]

/-- `RegisterDisplay.display`: separator, 16 general-purpose register lines,
optional flags line, optional segment line; returns the printed lines and the
updated snapshot. -/
def display (ins : Inspector) (prev : Prev) : List String × Prev :=
  let st := renderRegsAux ins GENERAL_REGS prev
  (print_separator ins.termWidth '─' "registers" Colors.CYAN ::
    (st.1 ++ flagsLines ins ++ segLines ins), st.2)

end RegisterDisplay

/-! ### Stack Display (`class StackDisplay`) -/

namespace StackDisplay

/-- The line built for stack word `i` once its memory read succeeded
(`val_int` the value read at `sp + i*8`). -/
def stackLine (ins : Inspector) (sp : Int) (i : Nat) (val_int : Int) : String :=
  let addr : Int := sp + i * 8
  let addr_str := format_address (some addr)
  let offset_str := colorize ("+0x" ++ pyHexPad (i * 8) 4) Colors.GRAY
  let val_str := format_address (some val_int)
  let line := addr_str ++ " " ++ offset_str ++ ": " ++ val_str
  let annotation :=
    if i = 0 then colorize "← $rsp" Colors.COMMENT
    else
      match ins.infoSymbol val_int with
      | none => ""
      | some raw =>
        let sym_info := pyStrip raw
        if ¬ strContains sym_info "No symbol" ∧ sym_info ≠ "" then
          let sym_info := ((pySplitChar '\n' sym_info).headD "")
          let sym_info :=
            if sym_info.length > 50 then pyTake sym_info 47 ++ "..." else sym_info
          colorize " → " Colors.ARROW ++ colorize sym_info Colors.COMMENT
        else ""
  if annotation ≠ "" then line ++ annotation else line

/-- The content lines of `StackDisplay.display` (everything after the
separator): an unreadable stack pointer prints the single placeholder line
without attempting any memory read; a failed word read at one offset silently
skips that line only. -/
def content (ins : Inspector) (lines : Nat) : List String :=
  match ins.readReg "rsp" with
  | none => [colorize "  Stack not available" Colors.GRAY]
  | some sp =>
    (List.range lines).filterMap (fun (i : Nat) =>
      (ins.readMem (sp + (i : Int) * 8)).map (stackLine ins sp i))

/-- `StackDisplay.display` -/
def display (ins : Inspector) (lines : Nat) : List String :=
  print_separator ins.termWidth '─' "stack" Colors.CYAN :: content ins lines

end StackDisplay

/-! ### Code Display (`class CodeDisplay`) -/

namespace CodeDisplay

/-- The filter of the parsing loop in `CodeDisplay.display`:
`line.strip() and not line.startswith('Dump') and not line.startswith('End of')`. -/
def keepRawLine (line : String) : Bool :=
  !(pyStrip line == "") && !(pyStartsWith line "Dump") && !(pyStartsWith line "End of")

/-- `CodeDisplay.format_disasm_line`.  The source returns `None` for a line
whose `strip()` is empty (the caller treats it as "do not append") and
otherwise rebuilds the line with the `=>` marker replaced by spaces and the
address / enclosing-symbol / mnemonic / operand fragments re-emitted with
ANSI colors through regular-expression matches; that rebuilt text is always
non-empty, so the caller's truthiness test coincides with the `Option` here.
The colored rebuild is modelled by the marker-stripped line text itself — no
verified claim depends on the inserted escape sequences.  `current_pc` is
accepted and unused, exactly as in the source. -/
def format_disasm_line (line : String) (current_pc : Int) : Option String :=
  if pyStrip line = "" then none
  else some (pyReplace line "=>" "  ")

/-- The parsing loop of `CodeDisplay.display`: builds `all_lines` and
`current_idx` (set to the pre-append length of `all_lines` whenever `=>`
occurs in the raw line; `none` models the initial `-1`). -/
def parseDisasmAux (pc : Int) :
    List String → List String → Option Nat → List String × Option Nat
  | [], acc, idx => (acc.reverse, idx)
  | line :: rest, acc, idx =>
    if keepRawLine line then
      match format_disasm_line line pc with
      | some formatted =>
        parseDisasmAux pc rest (formatted :: acc)
          (if strContains line "=>" then some acc.length else idx)
      | none => parseDisasmAux pc rest acc idx
    else parseDisasmAux pc rest acc idx

/-- `for line in disasm.split('\n')` plus the loop above. -/
def parseDisasm (pc : Int) (disasm : String) : List String × Option Nat :=
  parseDisasmAux pc (pySplitChar '\n' disasm) [] none

/-- The function-bounds attempt of `CodeDisplay.display`: resolve the frame's
block, walk `superblock`s until a block with function identity, and
disassemble `[block.start, block.end)`.  Any failure on the way (no frame, no
block, no function, failing disassembly) raises in the source and is caught
by the fallback, modelled as `none`. -/
def disasmFromFunction (ins : Inspector) : Option String :=
  match ins.frame with
  | none => none
  | some fr =>
    match fr.block with
    | none => none
    | some block =>
      let block := block.walk
      match block.function with
      | some _ => ins.disassemble block.start block.stop
      | none => none

/-- The disassembly text obtained by `CodeDisplay.display`: function bounds
first, then `disassemble $rip-before,$rip+after`
(`before = after = disasm_lines * 8` bytes), then the forward-only window
`disassemble $rip,$rip+after*2`; `none` when every attempt fails. -/
def disasmText (ins : Inspector) (disasm_lines : Nat) (pc : Int) : Option String :=
  match disasmFromFunction ins with
  | some disasm => some disasm
  | none =>
    let before : Int := (disasm_lines : Int) * 8
    let after : Int := (disasm_lines : Int) * 8
    match ins.disassemble (pc - before) (pc + after) with
    | some disasm => some disasm
    | none => ins.disassemble pc (pc + after * 2)

/-- The window `[start, end)` computed by `CodeDisplay.display` around
`current_idx` among `total` parsed lines.  Python's `max(0, ·)` on the two
starts is truncated `Nat` subtraction. -/
def windowBounds (total current_idx disasm_lines : Nat) : Nat × Nat :=
  let half := disasm_lines / 2
  let start := current_idx - half
  let stop := min total (start + disasm_lines)
  let start := if stop - start < disasm_lines then stop - disasm_lines else start
  (start, stop)

/-- The disassembly lines printed by `CodeDisplay.display` before its padding
loop: the window around the current instruction when a marker was found, the
first `disasm_lines` parsed lines when not, and the single placeholder line
when the program counter or every disassembly request fails (the
`except` branch). -/
def disasmBody (ins : Inspector) (disasm_lines : Nat) : List String :=
  match ins.readReg "rip" with
  | none => [colorize "  Code not available" Colors.GRAY]
  | some pc =>
    match disasmText ins disasm_lines pc with
    | none => [colorize "  Code not available" Colors.GRAY]
    | some disasm =>
      let parsed := parseDisasm pc disasm
      let all_lines := parsed.1
      match parsed.2 with
      | some current_idx =>
        let b := windowBounds all_lines.length current_idx disasm_lines
        (all_lines.drop b.1).take (b.2 - b.1)
      | none => all_lines.take disasm_lines

/-- The disassembly sub-panel after the padding loop
(`while lines_printed < disasm_lines: print()`). -/
def disasmPadded (ins : Inspector) (disasm_lines : Nat) : List String :=
  let body := disasmBody ins disasm_lines
  body ++ List.replicate (disasm_lines - body.length) ""

/-- `CodeDisplay.display_source`.  Mirrors the source's control flow exactly:
the labeled separator is printed before the file is opened, so a failing
read leaves the already-printed separator behind (`except: pass` swallows
the exception after the fact). -/
def display_source (ins : Inspector) : List String :=
  match ins.frame with
  | none => []
  | some fr =>
    match fr.sal with
    | none => []
    | some (filename, line_num) =>
      if line_num > 0 then
        let bn := basename filename
        let sep := print_separator ins.termWidth '─'
          ("source:" ++ bn ++ "+" ++ toString line_num) Colors.CYAN
        match ins.readFile filename with
        | none => [sep]
        | some lines =>
          let start := line_num - 3
          let stop := min lines.length (line_num + 2)
          sep :: (List.range' start (stop - start)).map (fun (i : Nat) =>
            let line_text := pyRStrip (lines.getD i "")
            let num_str := padLeftNum (i + 1) 5
            if i + 1 = line_num then
              colorize "→" Colors.CURRENT_LINE ++ " " ++
                colorize num_str Colors.CURRENT_LINE ++ "  " ++
                colorize line_text Colors.WHITE
            else
              " " ++ colorize num_str Colors.GRAY ++ "  " ++ line_text)
      else []

/-- `CodeDisplay.display`: separator, exactly `disasm_lines` disassembly
lines (padded), then the source sub-panel. -/
def display (ins : Inspector) (disasm_lines : Nat) : List String :=
  print_separator ins.termWidth '─' "code:i386:x86-64" Colors.CYAN ::
    (disasmPadded ins disasm_lines ++ display_source ins)

end CodeDisplay

/-! ### Thread Display (`class ThreadDisplay`) -/

/-- `ThreadDisplay.display`: up to three non-empty lines of `info threads`
(the inner `if line.strip()` is always true after the filter), the current
thread (a `*` within the first five characters) highlighted; one canned
placeholder line when the query fails. -/
def ThreadDisplay.display (ins : Inspector) : List String :=
  print_separator ins.termWidth '─' "threads" Colors.CYAN ::
    match ins.infoThreads with
    | none => [colorize "  [#0] Id 1, Name: \"program\", stopped" Colors.WHITE]
    | some info =>
      let lines := (pySplitChar '\n' info).filter (fun l => !(pyStrip l == ""))
      (lines.take 3).map (fun line =>
        if pyContainsChar (pyTake line 5) '*' then colorize line Colors.CURRENT_LINE
        else line)

/-! ### Backtrace Display (`class BacktraceDisplay`) -/

/-- `BacktraceDisplay.display`.  The three `re.sub` recolorings of a printed
backtrace line (frame numbers, addresses, function names after `in `) insert
escape codes into the text and are modelled by the identity on the line — no
verified claim depends on them.  In the fallback a raising
`frame.function()` is modelled like a `None` result (no line printed), see
`Frame`. -/
def BacktraceDisplay.display (ins : Inspector) (limit : Nat) : List String :=
  print_separator ins.termWidth '─' "trace" Colors.CYAN ::
    match ins.backtrace limit with
    | some bt =>
      let lines := (pySplitChar '\n' bt).filter (fun l => !(pyStrip l == ""))
      lines.take (limit + 1)
    | none =>
      match ins.frame with
      | none => [colorize "  Backtrace not available" Colors.GRAY]
      | some fr =>
        match fr.function with
        | some func_name =>
          [colorize "#0" Colors.CYAN ++ " " ++ format_address (some fr.pc) ++ " → " ++
            colorize (func_name ++ "()") Colors.YELLOW]
        | none => []

/-! ### Context Orchestrator (`class ContextDisplay`) -/

/-- The two-segment legend line printed at each refresh. -/
def legendLine : String :=
  "[ Legend: " ++ colorize "Modified register" Colors.REGISTER_CHANGED ++ " | " ++
    colorize "Code" Colors.YELLOW ++ " | " ++ colorize "Heap" Colors.GREEN ++ " | " ++
    colorize "Stack" Colors.MAGENTA ++ " | " ++ colorize "String" Colors.STRING ++ " ]"

/-- `ContextDisplay.display`: leading blank line, legend, the five panels in
fixed order, bottom separator, and `padding_lines` trailing blank lines; the
register snapshot is threaded through.  (`lines_printed` is tallied but never
used in the source.)  The backtrace panel is invoked with its default
`limit=2`. -/
def ContextDisplay.display (ins : Inspector) (prev : Prev) : List String × Prev :=
  let layout := calculate_sections ins.termWidth ins.termHeight
  let regs := RegisterDisplay.display ins prev
  ("" :: legendLine :: regs.1 ++
     StackDisplay.display ins layout.stack_lines ++
     CodeDisplay.display ins layout.code_disasm_lines ++
     ThreadDisplay.display ins ++
     BacktraceDisplay.display ins 2 ++
     [colorize (repChar '─' ins.termWidth) Colors.CYAN] ++
     List.replicate layout.padding_lines "",
   regs.2)

/-! ### Concrete inspectors used by witnesses and counterexamples -/

/-- A session where every Inspector query fails (every GDB call raises). -/
def insAllFail : Inspector :=
  { termWidth := 10, termHeight := 57,
    readReg := fun _ => none, readMem := fun _ => none,
    infoSymbol := fun _ => none, frame := none,
    disassemble := fun _ _ => none, infoThreads := none,
    backtrace := fun _ => none, readFile := fun _ => none }

/-- A session where every query succeeds with enough data to fill every
section budget. -/
def insAllData : Inspector :=
  { termWidth := 10, termHeight := 60,
    readReg := fun _ => some 1, readMem := fun _ => some 1,
    infoSymbol := fun _ => none,
    frame := some { block := none, function := some "main", pc := 1,
                    sal := some ("d/a.c", 5) },
    disassemble := fun _ _ => some "i1\ni2",
    infoThreads := some "t1\nt2\nt3",
    backtrace := fun _ => some "b1\nb2\nb3",
    readFile := fun _ => some ["l1", "l2", "l3", "l4", "l5", "l6", "l7"] }

/-- A session where only register `rax` is readable, with value `v`. -/
def insRax (v : Int) : Inspector :=
  { termWidth := 5, termHeight := 40,
    readReg := fun r => if r = "rax" then some v else none,
    readMem := fun _ => none, infoSymbol := fun _ => none, frame := none,
    disassemble := fun _ _ => none, infoThreads := none,
    backtrace := fun _ => none, readFile := fun _ => none }

/-- A session with a readable stack pointer at `100` whose word at offset
`3*8` (address `124`) is unreadable while every other word reads `7`. -/
def insStack : Inspector :=
  { termWidth := 10, termHeight := 57,
    readReg := fun r => if r = "rsp" then some 100 else none,
    readMem := fun a => if a = 124 then none else some 7,
    infoSymbol := fun _ => none, frame := none,
    disassemble := fun _ _ => none, infoThreads := none,
    backtrace := fun _ => none, readFile := fun _ => none }

/-- A session with a resolvable source location whose source file cannot be
read. -/
def insSrcFail : Inspector :=
  { termWidth := 10, termHeight := 57,
    readReg := fun _ => none, readMem := fun _ => none,
    infoSymbol := fun _ => none,
    frame := some { block := none, function := none, pc := 0,
                    sal := some ("d/a.c", 5) },
    disassemble := fun _ _ => none, infoThreads := none,
    backtrace := fun _ => none, readFile := fun _ => none }

/-- The rendering `format_register_line` is specified to produce for a
register whose delta test fired: name and value both in the changed color,
followed by the usual annotation. -/
def changedLineSpec (ins : Inspector) (R : String) (B : Int) : String :=
  let reg_label := colorize ("$" ++ padRightStr R 4) Colors.REGISTER_CHANGED
  let val_str :=
    colorize ("0x" ++ (if B > 0xFFFFFFFF then pyHexPad B 16 else pyHexPad B 8))
      Colors.REGISTER_CHANGED
  let result := reg_label ++ " : " ++ val_str
  let annotation := RegisterDisplay.register_annotation ins R (some B)
  if annotation ≠ "" then result ++ colorize " → " Colors.ARROW ++ annotation else result

/-! ## Helper lemmas -/

theorem dget_dset_self (p : Prev) (k : String) (v : Option Int) :
    dget (dset p k v) k = some v := by
  induction p with
  | nil => simp [dget, dset]
  | cons hd tl ih =>
    obtain ⟨a, b⟩ := hd
    by_cases h : a = k
    · simp [dget, dset, h]
    · simp [dget, dset, h, ih]

theorem dget_dset_ne (p : Prev) (k k' : String) (v : Option Int) (h : k' ≠ k) :
    dget (dset p k v) k' = dget p k' := by
  induction p with
  | nil =>
    simp only [dget, dset]
    rw [if_neg (Ne.symm h)]
  | cons hd tl ih =>
    obtain ⟨a, b⟩ := hd
    by_cases ha : a = k
    · subst ha
      simp only [dget, dset, if_pos rfl]
      rw [if_neg (Ne.symm h), if_neg (Ne.symm h)]
    · by_cases hk : a = k'
      · subst hk
        rw [dset, if_neg ha, dget, if_pos rfl, dget, if_pos rfl]
      · simp [dget, dset, ha, hk, ih]

theorem dset_eq_of_dget (p : Prev) (k : String) (v : Option Int)
    (h : dget p k = some v) : dset p k v = p := by
  induction p with
  | nil => simp [dget] at h
  | cons hd tl ih =>
    obtain ⟨a, b⟩ := hd
    by_cases ha : a = k
    · subst ha
      rw [dget, if_pos rfl] at h
      obtain rfl : b = v := by simpa using h
      simp [dset]
    · rw [dget, if_neg ha] at h
      simp [dset, ha, ih h]

theorem length_filterMap_of_isSome {α β : Type} (f : α → Option β) :
    ∀ l : List α, (∀ a ∈ l, (f a).isSome) → (l.filterMap f).length = l.length
  | [], _ => by simp
  | a :: l, h => by
    obtain ⟨b, hb⟩ := Option.isSome_iff_exists.mp (h a (by simp))
    simp [List.filterMap_cons, hb,
      length_filterMap_of_isSome f l (fun x hx => h x (by simp [hx]))]

namespace RegisterDisplay

theorem format_register_line_snd (ins : Inspector) (p : Prev) (r : String)
    (v : Option Int) : (format_register_line ins p r v).2 = dset p r v := rfl

theorem renderRegsAux_length (ins : Inspector) (regs : List String) (prev : Prev) :
    (renderRegsAux ins regs prev).1.length = regs.length := by
  induction regs generalizing prev with
  | nil => rfl
  | cons r rs ih =>
    simp only [renderRegsAux, List.length_cons, ih]

theorem dget_renderRegsAux (ins : Inspector) (regs : List String) (prev : Prev)
    (R : String) :
    dget (renderRegsAux ins regs prev).2 R =
      if R ∈ regs then some (ins.readReg R) else dget prev R := by
  induction regs generalizing prev with
  | nil => simp [renderRegsAux]
  | cons r rs ih =>
    simp only [renderRegsAux, format_register_line_snd]
    by_cases hmem : R ∈ rs
    · simp [ih, hmem]
    · by_cases heq : R = r
      · subst heq
        simp [ih, hmem, dget_dset_self, get_register_value]
      · simp [ih, hmem, heq, dget_dset_ne _ _ _ _ heq]

theorem renderRegsAux_snd_fixpoint (ins : Inspector) (regs : List String) (prev : Prev)
    (h : ∀ R ∈ regs, dget prev R = some (ins.readReg R)) :
    (renderRegsAux ins regs prev).2 = prev := by
  induction regs generalizing prev with
  | nil => rfl
  | cons r rs ih =>
    have hr : dset prev r (get_register_value ins r) = prev :=
      dset_eq_of_dget _ _ _ (h r (by simp))
    simp only [renderRegsAux, format_register_line_snd, hr]
    exact ih prev (fun R hR => h R (by simp [hR]))

theorem format_register_line_fst_congr (ins : Inspector) (p q : Prev) (r : String)
    (v : Option Int) (h : register_changed p r v = register_changed q r v) :
    (format_register_line ins p r v).1 = (format_register_line ins q r v).1 := by
  simp only [format_register_line, h]

theorem register_changed_dset_preserved (ins : Inspector) (p : Prev) (r R : String)
    (hp : ∀ S, register_changed p S (ins.readReg S) = false) :
    register_changed (dset p r (ins.readReg r)) R (ins.readReg R) = false := by
  by_cases h : R = r
  · subst h
    simp [register_changed, dget_dset_self]
  · rw [register_changed, dget_dset_ne _ _ _ _ h]
    have := hp R
    rw [register_changed] at this
    exact this

theorem renderRegsAux_fst_congr (ins : Inspector) (regs : List String) (p q : Prev)
    (hp : ∀ R, register_changed p R (ins.readReg R) = false)
    (hq : ∀ R, register_changed q R (ins.readReg R) = false) :
    (renderRegsAux ins regs p).1 = (renderRegsAux ins regs q).1 := by
  induction regs generalizing p q with
  | nil => rfl
  | cons r rs ih =>
    have hline := format_register_line_fst_congr ins p q r (get_register_value ins r)
      (by rw [get_register_value, hp, hq])
    have htail := ih (dset p r (ins.readReg r)) (dset q r (ins.readReg r))
      (fun R => register_changed_dset_preserved ins p r R hp)
      (fun R => register_changed_dset_preserved ins q r R hq)
    simp only [get_register_value] at hline
    simp only [renderRegsAux, format_register_line_snd, get_register_value]
    rw [hline, htail]

end RegisterDisplay

theorem flagsLines_length (ins : Inspector) :
    (RegisterDisplay.flagsLines ins).length =
      if (ins.readReg "eflags").isSome then 1 else 0 := by
  rw [RegisterDisplay.flagsLines, RegisterDisplay.get_register_value]
  cases ins.readReg "eflags" <;> simp

theorem segLines_length (ins : Inspector) :
    (RegisterDisplay.segLines ins).length =
      if RegisterDisplay.SEG_REGS.any (fun s => (ins.readReg s).isSome) then 1 else 0 := by
  rw [RegisterDisplay.segLines]
  rcases hps : RegisterDisplay.segParts ins with _ | ⟨x, xs⟩
  · have hall : ∀ s ∈ RegisterDisplay.SEG_REGS, (ins.readReg s).isSome = false := by
      intro s hs
      have hnone := List.filterMap_eq_nil_iff.mp hps s hs
      cases hv : ins.readReg s with
      | none => rfl
      | some v => rw [RegisterDisplay.get_register_value, hv] at hnone; simp at hnone
    have : RegisterDisplay.SEG_REGS.any (fun s => (ins.readReg s).isSome) = false := by
      rw [List.any_eq_false]
      intro s hs
      simp [hall s hs]
    simp [this]
  · have hmem : x ∈ RegisterDisplay.segParts ins := by rw [hps]; exact List.mem_cons_self x xs
    obtain ⟨s, hs, hfs⟩ := List.mem_filterMap.mp hmem
    have : RegisterDisplay.SEG_REGS.any (fun s => (ins.readReg s).isSome) = true := by
      rw [List.any_eq_true]
      refine ⟨s, hs, ?_⟩
      rw [RegisterDisplay.get_register_value] at hfs
      cases hv : ins.readReg s with
      | none => rw [hv] at hfs; simp at hfs
      | some v => simp
    simp [this]

theorem registers_display_length (ins : Inspector) (prev : Prev) :
    (RegisterDisplay.display ins prev).1.length =
      1 + 16 + (RegisterDisplay.flagsLines ins).length +
        (RegisterDisplay.segLines ins).length := by
  have h16 : RegisterDisplay.GENERAL_REGS.length = 16 := rfl
  simp only [RegisterDisplay.display, List.length_cons, List.length_append,
    RegisterDisplay.renderRegsAux_length, h16]
  omega

theorem stack_content_length_full (ins : Inspector) (n : Nat) (sp : Int)
    (hsp : ins.readReg "rsp" = some sp)
    (hm : ∀ i : Nat, i < n → (ins.readMem (sp + (i : Int) * 8)).isSome) :
    (StackDisplay.content ins n).length = n := by
  rw [StackDisplay.content, hsp]
  rw [length_filterMap_of_isSome]
  · exact List.length_range n
  · intro i hi
    have hsome := hm i (List.mem_range.mp hi)
    simpa using hsome

namespace CodeDisplay

theorem windowBounds_sub_le (total i B : Nat) :
    (windowBounds total i B).2 - (windowBounds total i B).1 ≤ B := by
  simp only [windowBounds]
  split <;> omega

theorem disasmBody_length_le (ins : Inspector) (B : Nat) (h : 1 ≤ B) :
    (disasmBody ins B).length ≤ B := by
  rcases hrip : ins.readReg "rip" with _ | pc
  · rw [disasmBody, hrip]
    simpa using h
  · rcases hdt : disasmText ins B pc with _ | disasm
    · rw [disasmBody, hrip]
      dsimp only
      rw [hdt]
      simpa using h
    · rcases hidx : (parseDisasm pc disasm).2 with _ | i
      · rw [disasmBody, hrip]
        dsimp only
        rw [hdt]
        simp only [hidx, List.length_take]
        omega
      · rw [disasmBody, hrip]
        dsimp only
        rw [hdt]
        have hb := windowBounds_sub_le (parseDisasm pc disasm).1.length i B
        simp only [hidx, List.length_take, List.length_drop]
        omega

theorem disasmPadded_length (ins : Inspector) (B : Nat) (h : 1 ≤ B) :
    (disasmPadded ins B).length = B := by
  have hle := disasmBody_length_le ins B h
  simp only [disasmPadded, List.length_append, List.length_replicate]
  omega

theorem display_source_length_full (ins : Inspector) (fr : Frame) (f : String)
    (ln : Nat) (ls : List String) (h1 : ins.frame = some fr)
    (h2 : fr.sal = some (f, ln)) (h3 : 3 ≤ ln) (h4 : ins.readFile f = some ls)
    (h5 : ln + 2 ≤ ls.length) :
    (display_source ins).length = 6 := by
  rw [display_source, h1]
  dsimp only
  rw [h2]
  dsimp only
  rw [if_pos (by omega : ln > 0), h4]
  simp only [List.length_cons, List.length_map, List.length_range']
  omega

end CodeDisplay

theorem threads_display_length_full (ins : Inspector) (t : String)
    (ht : ins.infoThreads = some t)
    (h3 : 3 ≤ ((pySplitChar '\n' t).filter (fun l => !(pyStrip l == ""))).length) :
    (ThreadDisplay.display ins).length = 4 := by
  rw [ThreadDisplay.display, ht]
  simp only [List.length_cons, List.length_map, List.length_take]
  omega

theorem trace_display_length_full (ins : Inspector) (bt : String)
    (hbt : ins.backtrace 2 = some bt)
    (h3 : 3 ≤ ((pySplitChar '\n' bt).filter (fun l => !(pyStrip l == ""))).length) :
    (BacktraceDisplay.display ins 2).length = 4 := by
  rw [BacktraceDisplay.display, hbt]
  simp only [List.length_cons, List.length_take]
  omega

/-! ## Claims -/

/-- C4: the layout budget is a pure function of the terminal dimensions with
the fixed per-section constants (registers 18, stack 10, code-disassembly 8,
code-source 5, threads 3, backtrace 3, two code separators, one separator for
each of the four other sections, a two-line legend and one bottom separator);
the padding equals `max(0, height − (sum of all fixed lines) − 1)`, and when
the padding is positive all section lines plus padding sum to `height − 1`. -/
theorem C4_layout_budget (w h : Nat) :
    ((calculate_sections w h).registers_content_lines = 18 ∧
      (calculate_sections w h).stack_lines = 10 ∧
      (calculate_sections w h).code_disasm_lines = 8 ∧
      (calculate_sections w h).code_source_lines = 5 ∧
      (calculate_sections w h).threads_lines = 3 ∧
      (calculate_sections w h).trace_lines = 3 ∧
      (calculate_sections w h).code_separators = 2 ∧
      ((calculate_sections w h).padding_lines : Int) =
        max 0 ((h : Int) - ((18 + 10 + 8 + 5 + 3 + 3) + (2 + 1 + 1 + 1 + 1) + 2 + 1) - 1)) ∧
    (0 < (calculate_sections w h).padding_lines →
      2 + (1 + (calculate_sections w h).registers_content_lines) +
        (1 + (calculate_sections w h).stack_lines) +
        ((calculate_sections w h).code_separators +
          (calculate_sections w h).code_disasm_lines +
          (calculate_sections w h).code_source_lines) +
        (1 + (calculate_sections w h).threads_lines) +
        (1 + (calculate_sections w h).trace_lines) + 1 +
        (calculate_sections w h).padding_lines = h - 1) := by
  refine ⟨⟨rfl, rfl, rfl, rfl, rfl, rfl, rfl, ?_⟩, ?_⟩
  · simp only [calculate_sections]
    omega
  · intro hpos
    simp only [calculate_sections] at hpos ⊢
    omega

/-- C4 witness: the layout invariant evaluated on a 120×60 terminal. -/
theorem C4_layout_budget_witness :
    2 + (1 + (calculate_sections 120 60).registers_content_lines) +
      (1 + (calculate_sections 120 60).stack_lines) +
      ((calculate_sections 120 60).code_separators +
        (calculate_sections 120 60).code_disasm_lines +
        (calculate_sections 120 60).code_source_lines) +
      (1 + (calculate_sections 120 60).threads_lines) +
      (1 + (calculate_sections 120 60).trace_lines) + 1 +
      (calculate_sections 120 60).padding_lines = 60 - 1 :=
  (C4_layout_budget 120 60).2 (by decide)

/-- C3: for a disassembly listing of `L` lines with the current-instruction
marker at index `i` and a (positive) visible-line budget `B ≤ L`, the window
has exactly `B` lines, contains index `i`, and starts at
`max(0, min(i − B/2, L − B))` (integer division). -/
theorem C3_disasm_window (L i B : Nat) (hiL : i < L) (hB : 1 ≤ B) (hBL : B ≤ L) :
    (CodeDisplay.windowBounds L i B).2 - (CodeDisplay.windowBounds L i B).1 = B ∧
    (CodeDisplay.windowBounds L i B).1 ≤ i ∧
    i < (CodeDisplay.windowBounds L i B).2 ∧
    ((CodeDisplay.windowBounds L i B).1 : Int) =
      max 0 (min ((i : Int) - ((B / 2 : Nat) : Int)) ((L : Int) - (B : Int))) ∧
    ∀ lines : List String, lines.length = L →
      ((lines.drop (CodeDisplay.windowBounds L i B).1).take
        ((CodeDisplay.windowBounds L i B).2 - (CodeDisplay.windowBounds L i B).1)).length
        = B := by
  have hnum : (CodeDisplay.windowBounds L i B).2 - (CodeDisplay.windowBounds L i B).1 = B ∧
      (CodeDisplay.windowBounds L i B).1 ≤ i ∧
      i < (CodeDisplay.windowBounds L i B).2 ∧
      (CodeDisplay.windowBounds L i B).2 ≤ L ∧
      ((CodeDisplay.windowBounds L i B).1 : Int) =
        max 0 (min ((i : Int) - ((B / 2 : Nat) : Int)) ((L : Int) - (B : Int))) := by
    simp only [CodeDisplay.windowBounds]
    split <;> omega
  refine ⟨hnum.1, hnum.2.1, hnum.2.2.1, hnum.2.2.2.2, ?_⟩
  intro lines hlen
  have h1 := hnum.1
  have h4 := hnum.2.2.2.1
  simp only [List.length_take, List.length_drop, hlen]
  omega

/-- C3 witness: the window for `L = 20`, `i = 10`, `B = 8` is `[6, 14)`. -/
theorem C3_disasm_window_witness :
    (CodeDisplay.windowBounds 20 10 8).2 - (CodeDisplay.windowBounds 20 10 8).1 = 8 ∧
    (CodeDisplay.windowBounds 20 10 8).1 ≤ 10 ∧
    10 < (CodeDisplay.windowBounds 20 10 8).2 ∧
    ((CodeDisplay.windowBounds 20 10 8).1 : Int) =
      max 0 (min ((10 : Int) - ((8 / 2 : Nat) : Int)) ((20 : Int) - (8 : Int))) ∧
    (((List.replicate 20 "x").drop (CodeDisplay.windowBounds 20 10 8).1).take
      ((CodeDisplay.windowBounds 20 10 8).2 - (CodeDisplay.windowBounds 20 10 8).1)).length
      = 8 := by
  have h := C3_disasm_window 20 10 8 (by decide) (by decide) (by decide)
  exact ⟨h.1, h.2.1, h.2.2.1, h.2.2.2.1, h.2.2.2.2 (List.replicate 20 "x") (by decide)⟩

/-- C5: for every Inspector state (window around a found marker, first lines
when no marker was found, placeholder when no disassembly is obtainable) the
disassembly sub-panel prints exactly `B` content lines, blank-padded as
needed. -/
theorem C5_disasm_pad (ins : Inspector) (B : Nat) (hB : 1 ≤ B) :
    (CodeDisplay.disasmPadded ins B).length = B :=
  CodeDisplay.disasmPadded_length ins B hB

/-- C5 witness: a failing session and a session with data both print exactly
8 disassembly lines. -/
theorem C5_disasm_pad_witness :
    (CodeDisplay.disasmPadded insAllFail 8).length = 8 ∧
    (CodeDisplay.disasmPadded insAllData 8).length = 8 :=
  ⟨C5_disasm_pad insAllFail 8 (by decide), C5_disasm_pad insAllData 8 (by decide)⟩

/-- C8 counterexample: `0x246` decodes to `["PARITY", "ZERO", "INTERRUPT"]`
(bit 9 is also set), whose elements are uppercase, so the decoded list does
not contain the claimed literal `"parity"` or `"zero"`. -/
theorem C8_counterexample :
    parse_eflags_list 0x246 = ["PARITY", "ZERO", "INTERRUPT"] ∧
    "parity" ∉ parse_eflags_list 0x246 ∧ "zero" ∉ parse_eflags_list 0x246 := by
  decide

/-- C8 (amended): the bit positions are as claimed but the names for bits 2,
6 and 9 are the uppercase literals `PARITY`, `ZERO`, `INTERRUPT`; `0x246`
decodes to a list containing `"PARITY"` and `"ZERO"` and excluding
`"carry"`, `"sign"`, `"overflow"`; and when no listed bit is set the decoder
yields the literal `"none"`. -/
theorem C8_flags_decoding :
    flag_bits = [(0, "carry"), (2, "PARITY"), (4, "adjust"), (6, "ZERO"), (7, "sign"),
      (8, "trap"), (9, "INTERRUPT"), (10, "direction"), (11, "overflow")] ∧
    ("PARITY" ∈ parse_eflags_list 0x246 ∧ "ZERO" ∈ parse_eflags_list 0x246 ∧
      "carry" ∉ parse_eflags_list 0x246 ∧ "sign" ∉ parse_eflags_list 0x246 ∧
      "overflow" ∉ parse_eflags_list 0x246) ∧
    ∀ e : Int, (∀ p ∈ flag_bits, Int.land e ((2 ^ p.1 : Nat) : Int) = 0) →
      parse_eflags e = "none" := by
  refine ⟨rfl, by decide, ?_⟩
  intro e he
  have hnil : parse_eflags_list e = [] := by
    rw [parse_eflags_list, List.filterMap_eq_nil_iff]
    intro p hp
    have h := he p hp
    push_cast at h
    simp [h]
  rw [parse_eflags, hnil]

/-- C8 witness: `eflags = 0` sets no listed bit and decodes to `"none"`. -/
theorem C8_flags_decoding_witness : parse_eflags 0 = "none" :=
  C8_flags_decoding.2.2 0 (by decide)

/-- C2 counterexample: after a first observation where `rax` is unresolvable
(the placeholder `None` is stored in the snapshot), a second render with the
resolvable value `5` does produce a change mark and renders differently from
an unmarked line — the claim's "no change mark is produced" is false. -/
theorem C2_counterexample :
    RegisterDisplay.register_changed
      ((RegisterDisplay.format_register_line insAllFail [] "rax" none).2) "rax"
      (some 5) = true ∧
    (RegisterDisplay.format_register_line insAllFail
        ((RegisterDisplay.format_register_line insAllFail [] "rax" none).2) "rax"
        (some 5)).1 ≠
      (RegisterDisplay.format_register_line insAllFail [] "rax" (some 5)).1 := by
  decide

/-- C2 (amended): when the previous snapshot holds a resolvable `A` and the
new value `B` is resolvable with `A ≠ B`, the second render marks the
register's name and value as changed; but when the first observation was
unresolvable the placeholder is stored in the snapshot, so the second render
marks the register as changed exactly when `B` is resolvable — only an
unresolvable `B` produces no mark. -/
theorem C2_register_delta (ins : Inspector) (prev : Prev) (R : String) (A B : Int) :
    (dget prev R = some (some A) → A ≠ B →
      RegisterDisplay.register_changed prev R (some B) = true ∧
      (RegisterDisplay.format_register_line ins prev R (some B)).1 =
        changedLineSpec ins R B) ∧
    (∀ p : Prev,
      dget (RegisterDisplay.format_register_line ins p R none).2 R = some none ∧
      RegisterDisplay.register_changed
        (RegisterDisplay.format_register_line ins p R none).2 R (some B) = true ∧
      RegisterDisplay.register_changed
        (RegisterDisplay.format_register_line ins p R none).2 R none = false) := by
  constructor
  · intro hA hAB
    have hc : RegisterDisplay.register_changed prev R (some B) = true := by
      rw [RegisterDisplay.register_changed, hA]
      simpa using fun h => hAB (by simpa using h)
    refine ⟨hc, ?_⟩
    simp [RegisterDisplay.format_register_line, changedLineSpec, hc]
  · intro p
    have hstore : dget (RegisterDisplay.format_register_line ins p R none).2 R
        = some none := by
      rw [RegisterDisplay.format_register_line_snd, dget_dset_self]
    refine ⟨hstore, ?_, ?_⟩
    · rw [RegisterDisplay.register_changed, hstore]
      simp
    · rw [RegisterDisplay.register_changed, hstore]
      simp

/-- C2 witness: `rbx` changing from `1` to `2` is marked changed and rendered
in the changed color; an unresolvable first observation of `rcx` stores the
placeholder, after which a resolvable second value is marked changed and an
unresolvable one is not. -/
theorem C2_register_delta_witness :
    (RegisterDisplay.register_changed [("rbx", some 1)] "rbx" (some 2) = true ∧
      (RegisterDisplay.format_register_line (insRax 1) [("rbx", some 1)] "rbx"
        (some 2)).1 = changedLineSpec (insRax 1) "rbx" 2) ∧
    (dget (RegisterDisplay.format_register_line (insRax 1) [] "rcx" none).2 "rcx"
        = some none ∧
      RegisterDisplay.register_changed
        (RegisterDisplay.format_register_line (insRax 1) [] "rcx" none).2 "rcx"
        (some 2) = true ∧
      RegisterDisplay.register_changed
        (RegisterDisplay.format_register_line (insRax 1) [] "rcx" none).2 "rcx"
        none = false) :=
  ⟨(C2_register_delta (insRax 1) [("rbx", some 1)] "rbx" 1 2).1 (by decide) (by decide),
   (C2_register_delta (insRax 1) [] "rcx" 1 2).2 []⟩

/-- C6: an unreadable stack pointer yields exactly the single
"Stack not available" placeholder line and no memory read is attempted (the
panel's output does not depend on the memory-read or symbol capabilities at
all); with a readable stack pointer, a failed word read at offset `k*8`
skips only that line while every other offset is still rendered in order. -/
theorem C6_stack_partial_failure (ins : Inspector) (n : Nat) :
    (ins.readReg "rsp" = none →
      StackDisplay.content ins n = [colorize "  Stack not available" Colors.GRAY] ∧
      ∀ (rm : Int → Option Int) (sym : Int → Option String),
        StackDisplay.content { ins with readMem := rm, infoSymbol := sym } n =
          StackDisplay.content ins n) ∧
    (∀ (sp : Int) (k : Nat) (v : Nat → Int), ins.readReg "rsp" = some sp →
      ins.readMem (sp + (k : Int) * 8) = none →
      (∀ i : Nat, i < n → i ≠ k → ins.readMem (sp + (i : Int) * 8) = some (v i)) →
      StackDisplay.content ins n =
        ((List.range n).filter (fun i => i != k)).map
          (fun i => StackDisplay.stackLine ins sp i (v i))) := by
  constructor
  · intro h
    constructor
    · rw [StackDisplay.content, h]
    · intro rm sym
      have h2 : ({ ins with readMem := rm, infoSymbol := sym } : Inspector).readReg
          "rsp" = none := h
      rw [StackDisplay.content, h2, StackDisplay.content, h]
  · intro sp k v hsp hk hv
    rw [StackDisplay.content, hsp]
    have aux : ∀ l : List Nat, (∀ i ∈ l, i < n) →
        (l.filterMap fun (i : Nat) =>
          (ins.readMem (sp + (i : Int) * 8)).map (StackDisplay.stackLine ins sp i)) =
          (l.filter (fun i => i != k)).map
            (fun i => StackDisplay.stackLine ins sp i (v i)) := by
      intro l
      induction l with
      | nil => intro _; rfl
      | cons a t ih =>
        intro hmem
        have htail := ih (fun i hi => hmem i (by simp [hi]))
        by_cases hak : a = k
        · subst hak
          simp [List.filterMap_cons, hk, List.filter_cons, htail]
        · have hval := hv a (hmem a (by simp)) hak
          simp [List.filterMap_cons, hval, List.filter_cons, hak, htail]
    exact aux (List.range n) (fun i hi => List.mem_range.mp hi)

/-- C6 witness: with an unreadable stack pointer only the placeholder is
printed; with stack pointer `100` and the word at offset `3*8` unreadable,
exactly the nine other offsets are rendered. -/
theorem C6_stack_partial_failure_witness :
    StackDisplay.content insAllFail 10 =
      [colorize "  Stack not available" Colors.GRAY] ∧
    StackDisplay.content insStack 10 =
      ((List.range 10).filter (fun i => i != 3)).map
        (fun i => StackDisplay.stackLine insStack 100 i 7) :=
  ⟨((C6_stack_partial_failure insAllFail 10).1 rfl).1,
   (C6_stack_partial_failure insStack 10).2 100 3 (fun _ => 7) rfl (by decide)
     (by decide)⟩

/-- C7 counterexample: with a resolvable source location but an unreadable
source file, the source sub-panel prints one line (the labeled separator,
already printed before the file is opened) — not the claimed zero lines. -/
theorem C7_counterexample :
    CodeDisplay.display_source insSrcFail ≠ [] ∧
    (CodeDisplay.display_source insSrcFail).length = 1 := by
  decide

/-- C7 (amended): if source-location resolution fails (no frame, no
symtab/sal, or line number 0) the source sub-panel prints nothing; if the
location resolves but the source-file read fails, exactly the labeled
separator line — already printed before the open — is emitted, with no
content lines; the sub-panel never propagates the failure. -/
theorem C7_source_subpanel (ins : Inspector) :
    ((ins.frame = none → CodeDisplay.display_source ins = []) ∧
      (∀ fr : Frame, ins.frame = some fr → fr.sal = none →
        CodeDisplay.display_source ins = []) ∧
      (∀ (fr : Frame) (f : String), ins.frame = some fr → fr.sal = some (f, 0) →
        CodeDisplay.display_source ins = [])) ∧
    (∀ (fr : Frame) (f : String) (ln : Nat), ins.frame = some fr →
      fr.sal = some (f, ln) → 0 < ln → ins.readFile f = none →
      CodeDisplay.display_source ins =
        [print_separator ins.termWidth '─'
          ("source:" ++ basename f ++ "+" ++ toString ln) Colors.CYAN]) := by
  refine ⟨⟨?_, ?_, ?_⟩, ?_⟩
  · intro h
    rw [CodeDisplay.display_source, h]
  · intro fr h1 h2
    rw [CodeDisplay.display_source, h1]
    dsimp only
    rw [h2]
  · intro fr f h1 h2
    rw [CodeDisplay.display_source, h1]
    dsimp only
    rw [h2]
    simp
  · intro fr f ln h1 h2 hln h4
    rw [CodeDisplay.display_source, h1]
    dsimp only
    rw [h2]
    dsimp only
    rw [if_pos hln, h4]

/-- C7 witness: a session with no frame prints nothing; a session with a
resolved location and an unreadable file prints exactly the separator. -/
theorem C7_source_subpanel_witness :
    CodeDisplay.display_source insAllFail = [] ∧
    CodeDisplay.display_source insSrcFail =
      [print_separator 10 '─' ("source:" ++ basename "d/a.c" ++ "+" ++ toString 5)
        Colors.CYAN] :=
  ⟨(C7_source_subpanel insAllFail).1.1 rfl,
   (C7_source_subpanel insSrcFail).2
     { block := none, function := none, pc := 0, sal := some ("d/a.c", 5) }
     "d/a.c" 5 rfl rfl (by decide) rfl⟩

/-- C10: the registers section always prints exactly one line per
general-purpose register (16), the flags line exactly when `eflags` is
readable, and the segment line exactly when at least one segment register is
readable, so its content (after the separator) is 16, 17 or 18 lines with no
padding to the budgeted 18. -/
theorem C10_registers_content (ins : Inspector) (prev : Prev) :
    (RegisterDisplay.renderRegsAux ins RegisterDisplay.GENERAL_REGS prev).1.length
      = 16 ∧
    ((RegisterDisplay.flagsLines ins).length =
      if (ins.readReg "eflags").isSome then 1 else 0) ∧
    ((RegisterDisplay.segLines ins).length =
      if RegisterDisplay.SEG_REGS.any (fun s => (ins.readReg s).isSome) then 1
      else 0) ∧
    (RegisterDisplay.display ins prev).1.length =
      1 + (16 + (RegisterDisplay.flagsLines ins).length +
        (RegisterDisplay.segLines ins).length) ∧
    16 ≤ (RegisterDisplay.display ins prev).1.length - 1 ∧
    (RegisterDisplay.display ins prev).1.length - 1 ≤ 18 := by
  have h1 := RegisterDisplay.renderRegsAux_length ins RegisterDisplay.GENERAL_REGS prev
  have h2 := flagsLines_length ins
  have h3 := segLines_length ins
  have h4 := registers_display_length ins prev
  have hb2 : (RegisterDisplay.flagsLines ins).length ≤ 1 := by
    rw [h2]; split <;> omega
  have hb3 : (RegisterDisplay.segLines ins).length ≤ 1 := by
    rw [h3]; split <;> omega
  exact ⟨by rw [h1]; rfl, h2, h3, by omega, by omega, by omega⟩

/-- C1 counterexample: at terminal height 57 (the smallest height whose
padding rule is active, so at or above the minimum viable height) with every
Inspector query failing, one refresh prints 35 lines, not the claimed
`H − 1 = 56`: the register, stack, source, thread and backtrace panels do
not pad to their budgets when data is missing. -/
theorem C1_counterexample :
    (ContextDisplay.display insAllFail []).1.length ≠ insAllFail.termHeight - 1 := by
  decide

/-- C1 (amended): one refresh prints exactly `H − 1` lines when the terminal
height is at least 57 and every panel's data is available and fills its
budget — flags readable, some segment register readable, stack pointer and
all ten stack words readable, source location resolving to line ≥ 3 of a
readable file with at least two following lines, and thread and backtrace
listings of at least three non-empty lines (the disassembly sub-panel needs
no assumption: it pads in every state).  When some panel's data is missing
the total falls short of `H − 1`. -/
theorem C1_refresh_height (ins : Inspector) (prev : Prev)
    (hH : 57 ≤ ins.termHeight)
    (hfl : (ins.readReg "eflags").isSome)
    (hseg : RegisterDisplay.SEG_REGS.any (fun s => (ins.readReg s).isSome))
    (sp : Int) (hsp : ins.readReg "rsp" = some sp)
    (hmem : ∀ i : Nat, i < 10 → (ins.readMem (sp + (i : Int) * 8)).isSome)
    (fr : Frame) (hfr : ins.frame = some fr)
    (f : String) (ln : Nat) (hsal : fr.sal = some (f, ln)) (hln : 3 ≤ ln)
    (ls : List String) (hfile : ins.readFile f = some ls) (hlen : ln + 2 ≤ ls.length)
    (t : String) (ht : ins.infoThreads = some t)
    (ht3 : 3 ≤ ((pySplitChar '\n' t).filter (fun l => !(pyStrip l == ""))).length)
    (bt : String) (hbt : ins.backtrace 2 = some bt)
    (hbt3 : 3 ≤ ((pySplitChar '\n' bt).filter (fun l => !(pyStrip l == ""))).length) :
    (ContextDisplay.display ins prev).1.length = ins.termHeight - 1 := by
  have h1 : (RegisterDisplay.display ins prev).1.length = 19 := by
    rw [registers_display_length, flagsLines_length, segLines_length, if_pos hfl,
      if_pos hseg]
  have h2 : (StackDisplay.display ins 10).length = 11 := by
    rw [StackDisplay.display, List.length_cons,
      stack_content_length_full ins 10 sp hsp hmem]
  have h3 : (CodeDisplay.display ins 8).length = 15 := by
    rw [CodeDisplay.display, List.length_cons, List.length_append,
      CodeDisplay.disasmPadded_length ins 8 (by omega),
      CodeDisplay.display_source_length_full ins fr f ln ls hfr hsal hln hfile hlen]
  have h4 := threads_display_length_full ins t ht ht3
  have h5 := trace_display_length_full ins bt hbt hbt3
  simp only [ContextDisplay.display, calculate_sections, List.length_append,
    List.length_cons, List.length_nil, List.length_replicate]
  rw [h1, h2, h3, h4, h5]
  omega

/-- C1 witness: a fully available session at height 60 prints exactly 59
lines. -/
theorem C1_refresh_height_witness :
    (ContextDisplay.display insAllData []).1.length = insAllData.termHeight - 1 :=
  C1_refresh_height insAllData [] (by decide) rfl (by decide) 1 rfl
    (fun _ _ => rfl)
    { block := none, function := some "main", pc := 1, sal := some ("d/a.c", 5) }
    rfl "d/a.c" 5 rfl (by decide)
    ["l1", "l2", "l3", "l4", "l5", "l6", "l7"] rfl (by decide)
    "t1\nt2\nt3" rfl (by decide)
    "b1\nb2\nb3" rfl (by decide)

/-- C9 counterexample: when a register changed before the first of the two
manual renders (first render from a snapshot holding `rax = 1` while the
session reads `rax = 2`), the first dashboard carries a changed mark and the
two dashboards are not identical, contradicting the claim that both are
identical with no changed highlighting in either. -/
theorem C9_counterexample :
    (ContextDisplay.display (insRax 2)
        (ContextDisplay.display (insRax 1) []).2).1 ≠
      (ContextDisplay.display (insRax 2)
        (ContextDisplay.display (insRax 2)
          (ContextDisplay.display (insRax 1) []).2).2).1 := by
  decide

/-- C9 (amended): with fixed Inspector data, the snapshot after the first
render is a fixpoint (the second render rewrites the same values), the
second render marks no register as changed, every render after the first is
identical to the second, and the first and second dashboards are identical
whenever the first render marks no register as changed (which can fail only
when a register changed before the first of the two calls). -/
theorem C9_idempotent_render (ins : Inspector) (prev : Prev) :
    (ContextDisplay.display ins (ContextDisplay.display ins prev).2).2 =
      (ContextDisplay.display ins prev).2 ∧
    (∀ R ∈ RegisterDisplay.GENERAL_REGS,
      RegisterDisplay.register_changed (ContextDisplay.display ins prev).2 R
        (ins.readReg R) = false) ∧
    (ContextDisplay.display ins
        (ContextDisplay.display ins
          (ContextDisplay.display ins prev).2).2).1 =
      (ContextDisplay.display ins (ContextDisplay.display ins prev).2).1 ∧
    ((∀ R, RegisterDisplay.register_changed prev R (ins.readReg R) = false) →
      (ContextDisplay.display ins (ContextDisplay.display ins prev).2).1 =
        (ContextDisplay.display ins prev).1) := by
  have hsnd : ∀ q : Prev, (ContextDisplay.display ins q).2 =
      (RegisterDisplay.renderRegsAux ins RegisterDisplay.GENERAL_REGS q).2 := by
    intro q
    simp only [ContextDisplay.display, RegisterDisplay.display]
  have hlook : ∀ R ∈ RegisterDisplay.GENERAL_REGS,
      dget (ContextDisplay.display ins prev).2 R = some (ins.readReg R) := by
    intro R hR
    rw [hsnd, RegisterDisplay.dget_renderRegsAux, if_pos hR]
  have hfix : (ContextDisplay.display ins (ContextDisplay.display ins prev).2).2 =
      (ContextDisplay.display ins prev).2 := by
    rw [hsnd]
    exact RegisterDisplay.renderRegsAux_snd_fixpoint ins _ _ hlook
  have hmarks : ∀ R ∈ RegisterDisplay.GENERAL_REGS,
      RegisterDisplay.register_changed (ContextDisplay.display ins prev).2 R
        (ins.readReg R) = false := by
    intro R hR
    rw [RegisterDisplay.register_changed, hlook R hR]
    simp
  refine ⟨hfix, hmarks, ?_, ?_⟩
  · exact congrArg (fun p => (ContextDisplay.display ins p).1) hfix
  · intro hp
    have hinv : ∀ R, RegisterDisplay.register_changed (ContextDisplay.display ins
        prev).2 R (ins.readReg R) = false := by
      intro R
      by_cases hR : R ∈ RegisterDisplay.GENERAL_REGS
      · exact hmarks R hR
      · rw [hsnd, RegisterDisplay.register_changed,
          RegisterDisplay.dget_renderRegsAux, if_neg hR]
        have := hp R
        rw [RegisterDisplay.register_changed] at this
        exact this
    have hglines := RegisterDisplay.renderRegsAux_fst_congr ins
      RegisterDisplay.GENERAL_REGS (ContextDisplay.display ins prev).2 prev hinv hp
    rw [hsnd] at hglines
    simp only [ContextDisplay.display, RegisterDisplay.display]
    rw [hglines]

/-- C9 witness: starting from the empty snapshot with fixed data, the
snapshot settles after one render and the second and third dashboards are
identical; since the empty snapshot marks nothing, the first and second
dashboards are identical too. -/
theorem C9_idempotent_render_witness :
    (ContextDisplay.display (insRax 2) (ContextDisplay.display (insRax 2) []).2).2 =
      (ContextDisplay.display (insRax 2) []).2 ∧
    (ContextDisplay.display (insRax 2) (ContextDisplay.display (insRax 2) []).2).1 =
      (ContextDisplay.display (insRax 2) []).1 :=
  ⟨(C9_idempotent_render (insRax 2) []).1,
   (C9_idempotent_render (insRax 2) []).2.2.2 (fun _ => rfl)⟩

end Gdbui
